import Mathlib

/-!
Verification development for the qubes-ansible-aux policy module.

This file gives a shallow embedding of the core logic of
`plugins/modules/qubes_policy.py`, `plugins/module_utils/policy_util.py`
and `plugins/module_utils/tool_context.py`, and proves or refutes the
specified properties of the name classifier, the stream-capturing tool
context, and the present/absent reconcile workflows.
-/

set_option autoImplicit false

namespace QubesPolicy

/-! ## Python value semantics needed by the source

`PolicyUtil.__init__` computes `self.is_include = self.name.parent == "include"`,
where `self.name` is a `pathlib.PurePosixPath` and `"include"` is a `str`.
In Python, `PurePath.__eq__` returns `NotImplemented` for a non-`PurePath`
operand, and `str.__eq__` returns `NotImplemented` for a non-`str` operand,
so the comparison falls back to identity and evaluates to `False` for every
path/string pair.  We embed just enough of this: a tagged value type whose
equality is `False` across tags. -/

inductive PyVal where
  | str (s : String)
  | posixPath (segs : List String)
deriving DecidableEq, Repr

/-- Python `==` on the two value kinds the source compares: same-kind values
compare structurally, cross-kind comparison is `False` (both `__eq__`
methods return `NotImplemented`, so Python falls back to identity). -/
def pyEq : PyVal → PyVal → Bool
  | .str a, .str b => a == b
  | .posixPath a, .posixPath b => a == b
  | _, _ => false

/-- Split a character list at `/` separators (structural recursion, so
that concrete names evaluate inside the kernel). -/
def splitSlashAux (cur : List Char) : List Char → List (List Char)
  | [] => [cur.reverse]
  | c :: rest =>
      if c = '/' then cur.reverse :: splitSlashAux [] rest
      else splitSlashAux (c :: cur) rest

/-- Segments of `pathlib.PurePosixPath(s)`: split on `/`, dropping empty
components and single dots, as `pathlib` normalization does for the
relative names accepted by the external name validator. -/
def pathSegments (s : String) : List String :=
  ((splitSlashAux [] s.data).map String.mk).filter fun seg =>
    seg != "" && seg != "."

/-- Join segments with `/` separators. -/
def joinSlash : List String → String
  | [] => ""
  | [x] => x
  | x :: rest => x ++ "/" ++ joinSlash rest

/-- `str()` of a `PurePosixPath` with the given segments (the empty segment
list renders as `"."`). -/
def pathStr (segs : List String) : String :=
  if segs.isEmpty then "." else joinSlash segs

/-- `PurePosixPath.parent`: drop the last segment (the parent of a
single-segment relative path is `.`, i.e. the empty segment list). -/
def pathParent (segs : List String) : List String :=
  segs.dropLast

/-- `PolicyUtil.__init__`: `self.is_include = self.name.parent == "include"`.
The left operand is a `PurePosixPath`, the right a `str`, compared with
Python `==` semantics (`pyEq`). -/
def is_include (name : String) : Bool :=
  pyEq (.posixPath (pathParent (pathSegments name))) (.str "include")

/-- Follows the spec's words (for comparison with `is_include` from the
source): `isInclude` is true iff the name's parent segment equals the
literal category `include`, as a string comparison. -/
def isInclude_spec (name : String) : Bool :=
  pathStr (pathParent (pathSegments name)) == "include"

/-- `PolicyUtil._client_method`: the remote method name is
`policy_include_<m>` when `is_include` holds, else `policy_<m>`. -/
def client_method_name (isInc : Bool) (method_name : String) : String :=
  if isInc then "policy_include_" ++ method_name else "policy_" ++ method_name

/-! ## Tool context: scoped capture of the process streams

`ToolContext.__enter__` saves `sys.stdin`/`sys.stdout` and redirects them to
string buffers; `ToolContext.__exit__` restores the saved streams first and
then translates `SystemExit(1)` and `subprocess.CalledProcessError` into
`ToolContextError`, letting every other exception propagate (`return False`). -/

/-- A value `sys.stdin` / `sys.stdout` can hold: an original stream handle
or an `io.StringIO` buffer with the given contents. -/
inductive StreamVal where
  | handle (id : Nat)
  | buffer (contents : String)
deriving DecidableEq, Repr

/-- The process-wide pair of redirectable streams. -/
structure SysStreams where
  stdin : StreamVal
  stdout : StreamVal
deriving DecidableEq, Repr

/-- The exceptions distinguished by `ToolContext.__exit__`. -/
inductive ExcKind where
  | systemExit (code : Int)
  | calledProcessError (output : String)
  | toolContextError (msg : String)
  | otherExc
deriving DecidableEq, Repr

/-- Python whitespace characters removed by `str.rstrip()` with no
argument (the ASCII ones; the source only meets ASCII diagnostics). -/
def isPyWhitespace (c : Char) : Bool :=
  c == ' ' || c == '\t' || c == '\n' || c == '\r' ||
  c == Char.ofNat 11 || c == Char.ofNat 12

/-- `str.rstrip()`: remove trailing whitespace. -/
def rstrip (s : String) : String :=
  String.mk ((s.data.reverse.dropWhile isPyWhitespace).reverse)

/-- `ToolContext.__exit__(exc_type, exc_value, exc_tb)`.  It first restores
`sys.stdin`/`sys.stdout` from the values saved by `__enter__`, then:
`SystemExit` with `code == 1` becomes `ToolContextError` carrying the
captured output buffer; `CalledProcessError` becomes `ToolContextError`
carrying the process output, `rstrip`ped; everything else (including
`SystemExit` with another code, and no exception) propagates unchanged
(`return False`).  Returns the restored streams and the propagating
exception, if any. -/
def tc_exit (savedStdin savedStdout : StreamVal) (capturedOutput : String)
    (exc : Option ExcKind) : SysStreams × Option ExcKind :=
  (⟨savedStdin, savedStdout⟩,
    match exc with
    | some (.systemExit code) =>
        if code == 1 then some (.toolContextError capturedOutput)
        else some (.systemExit code)
    | some (.calledProcessError out) => some (.toolContextError (rstrip out))
    | e => e)

/-- What running the body of a `with ToolContext(input):` block yields: the
process streams as the body left them, the contents of the capture buffer
when the body finished, and the body's outcome (a value or an exception). -/
structure BodyResult (α : Type) where
  sysAfter : SysStreams
  capturedOutput : String
  outcome : Except ExcKind α

/-- The whole `with ToolContext(input): body` construct: `__enter__` saves
the current streams and installs the input and capture buffers, the body
runs on the redirected streams, and `__exit__` (always invoked by the
`with` statement) restores the saved streams and translates the body's
exception, if any. -/
def withToolContext {α : Type} (input : String) (sys0 : SysStreams)
    (body : SysStreams → BodyResult α) : SysStreams × Except ExcKind α :=
  let savedStdin := sys0.stdin
  let savedStdout := sys0.stdout
  let r := body ⟨StreamVal.buffer input, StreamVal.buffer ""⟩
  let res := tc_exit savedStdin savedStdout r.capturedOutput
    (match r.outcome with
     | .error e => some e
     | .ok _ => none)
  (res.1,
   match res.2 with
   | some e => .error e
   | none =>
     match r.outcome with
     | .ok v => .ok v
     | .error e => .error e)

/-! ## The Ansible module: result construction and the two workflows

`PolicyModule.present` / `PolicyModule.absent` are embedded as functions of
an environment describing one invocation: the module parameters
(`check_mode`, diff mode, the validated name) and the outcome the external
collaborators (linter, remote policy store) would produce for the calls the
module makes.  The embedding records the ordered list of remote store calls
and the module's terminal outcome. -/

/-- A value in the result dictionary handed to `exit_json`. -/
inductive JVal where
  | s (v : String)
  | b (v : Bool)
  | diff (before after : JVal)
deriving DecidableEq, Repr

/-- Helper rendering Python single quotes around a name, as in the
f-string `Error during client method '<name>'` (quote written via its
code point). -/
def q (s : String) : String :=
  String.mk (Char.ofNat 39 :: (s.data ++ [Char.ofNat 39]))

/-- Python call binding, keyword phase: each keyword argument must name a
parameter that is not already bound, else the call raises
`TypeError: got multiple values for argument <k>`. -/
def bindKwargs (params : List String) (bound : List (String × JVal)) :
    List (String × JVal) → Except String (List (String × JVal))
  | [] => .ok bound
  | (k, v) :: rest =>
      if bound.any fun p => p.1 == k then
        .error ("TypeError: got multiple values for argument " ++ k)
      else if params.contains k then bindKwargs params (bound ++ [(k, v)]) rest
      else .error ("TypeError: unexpected keyword argument " ++ k)

/-- Python call binding for a function with the given named parameters:
positional arguments fill parameters in order, then keyword arguments are
checked against the already-bound parameters. -/
def bindArgs (params : List String) (posArgs : List JVal)
    (kwargs : List (String × JVal)) : Except String (List (String × JVal)) :=
  if params.length < posArgs.length then
    .error "TypeError: too many positional arguments"
  else bindKwargs params ((params.take posArgs.length).zip posArgs) kwargs

/-- Keyword expansion at an `exit_json(**d, k=v, ...)` call site: each
explicit keyword is added to the unpacked dictionary, raising
`TypeError: got multiple values for keyword argument <k>` on a key that is
already present. -/
def addKwargs (kvs : List (String × JVal)) :
    List (String × JVal) → Except String (List (String × JVal))
  | [] => .ok kvs
  | (k, v) :: rest =>
      if kvs.any fun p => p.1 == k then
        .error ("TypeError: got multiple values for keyword argument " ++ k)
      else addKwargs (kvs ++ [(k, v)]) rest

/-- Body of `PolicyModule._result(changed, before, after)`: a dictionary of
`changed`, `name`, `is_include`, extended with a nested `diff` entry
(`before`/`after`) exactly when the module runs in diff mode. -/
def result_dict (nameStr : String) (isInc diffMode : Bool)
    (changed before after : JVal) : List (String × JVal) :=
  let common := [("changed", changed), ("name", JVal.s nameStr),
                 ("is_include", JVal.b isInc)]
  if diffMode then common ++ [("diff", JVal.diff before after)] else common

/-- Failure kinds a store operation can have at the remote side.  The
module sees each of them only as a raised `PolicyUtilError`. -/
inductive StoreFailure where
  | notFound
  | transport
  | conflict
deriving DecidableEq, Repr

/-- Outcome the external policy store gives the single `get()` call of the
present workflow: content and concurrency token, or a failure (whose kind
the module code never inspects — `except PolicyUtilError` is kind-blind). -/
inductive GetOutcome where
  | ok (content token : String)
  | err (kind : StoreFailure)
deriving DecidableEq, Repr

/-- One invocation environment: module parameters plus the outcomes of the
external collaborators for the calls the module may make.  `lintResult`
is `some diag` when the linter rejects the desired content with diagnostic
`diag`; `replaceResult`/`removeResult` are `some cause` when the
corresponding store call raises with cause message `cause`. -/
structure Env where
  check_mode : Bool
  diff_mode : Bool
  name : String
  lintResult : Option String
  getResult : GetOutcome
  replaceResult : Option String
  removeResult : Option String
deriving DecidableEq, Repr

/-- A remote store RPC, carrying the dispatched client method name. -/
inductive RemoteCall where
  | get (fname : String)
  | replace (fname : String) (content token : String)
  | remove (fname : String)
  | list (fname : String)
deriving DecidableEq, Repr

/-- Terminal outcome of one module invocation: `fail_json` with a message,
a successful `exit_json` report, or an uncaught Python exception (such as
a `TypeError` from a bad call). -/
inductive ModuleOutcome where
  | failed (msg : String)
  | exited (kvs : List (String × JVal))
  | crashed (msg : String)
deriving DecidableEq, Repr

/-- The observable behavior of one invocation: the ordered remote store
calls made, and the terminal outcome. -/
structure RunResult where
  calls : List RemoteCall
  outcome : ModuleOutcome
deriving DecidableEq, Repr

/-- Turn the result of building the `exit_json` keyword set into a module
outcome: a raised `TypeError` crashes the module. -/
def emit (r : Except String (List (String × JVal))) : ModuleOutcome :=
  match r with
  | .ok kvs => .exited kvs
  | .error e => .crashed e

/-- The reporting expression of `present()`:
`exit_json(**_result(changed, current, new), state=, new=, content=)`.
`_result` is called with three positional arguments and no keywords. -/
def present_report (nameStr : String) (isInc diffMode changed : Bool)
    (current desired token : String) : Except String (List (String × JVal)) :=
  match bindArgs ["changed", "before", "after"]
      [JVal.b changed, JVal.s current, JVal.s desired] [] with
  | .error e => .error e
  | .ok bound =>
      let c := (bound.lookup "changed").getD (JVal.b false)
      let b := (bound.lookup "before").getD (JVal.s "")
      let a := (bound.lookup "after").getD (JVal.s "")
      addKwargs (result_dict nameStr isInc diffMode c b a)
        [("state", JVal.s "present"), ("new", JVal.b (token == "new")),
         ("content", JVal.s desired)]

/-- Positional arguments of the `_result` call in `absent()`:
`_result(changed, self.policy_util.name, "")` — the `before` position
receives the policy name, not any prior document content. -/
def absent_result_args (nameStr : String) (changed : Bool) : List JVal :=
  [JVal.b changed, JVal.s nameStr, JVal.s ""]

/-- The reporting expression of `absent()`:
`exit_json(**_result(changed, name, "", changed=True), state="absent")`.
The `_result` call receives `changed` both positionally and as a keyword. -/
def absent_report (nameStr : String) (isInc diffMode changed : Bool) :
    Except String (List (String × JVal)) :=
  match bindArgs ["changed", "before", "after"] (absent_result_args nameStr changed)
      [("changed", JVal.b true)] with
  | .error e => .error e
  | .ok bound =>
      let c := (bound.lookup "changed").getD (JVal.b false)
      let b := (bound.lookup "before").getD (JVal.s "")
      let a := (bound.lookup "after").getD (JVal.s "")
      addKwargs (result_dict nameStr isInc diffMode c b a)
        [("state", JVal.s "absent")]

/-- `PolicyModule.present()`: lint the desired content (a lint failure is
reported through `fail_json` before any store call); call `get()`,
recovering any `PolicyUtilError` as empty current content with the `new`
sentinel token; report `changed=False` without calling `replace` when in
check mode or when current equals desired byte for byte; otherwise call
`replace(desired, token)` and report `changed=True` (a replace failure is
reported through `fail_json`). -/
def present (env : Env) (desired : String) : RunResult :=
  match env.lintResult with
  | some diag => ⟨[], .failed ("Lint failed: " ++ diag)⟩
  | none =>
    let isInc := is_include env.name
    let nameStr := pathStr (pathSegments env.name)
    let getCall := RemoteCall.get (client_method_name isInc "get")
    let (current, token) :=
      match env.getResult with
      | .ok c t => (c, t)
      | .err _ => ("", "new")
    if env.check_mode || current == desired then
      ⟨[getCall],
       emit (present_report nameStr isInc env.diff_mode false current desired token)⟩
    else
      match env.replaceResult with
      | some cause =>
          ⟨[getCall,
            RemoteCall.replace (client_method_name isInc "replace") desired token],
           .failed ("Error during client method " ++ q "replace" ++ ": " ++ cause)⟩
      | none =>
          ⟨[getCall,
            RemoteCall.replace (client_method_name isInc "replace") desired token],
           emit (present_report nameStr isInc env.diff_mode true current desired token)⟩

/-- `PolicyModule.absent()`: in check mode, report with `changed=False`;
otherwise call `remove()` (a remove failure of any kind is reported
through `fail_json`) and report with `changed=True`.  Either report goes
through `absent_report`, whose `_result` call binds `changed` twice. -/
def absent (env : Env) : RunResult :=
  let isInc := is_include env.name
  let nameStr := pathStr (pathSegments env.name)
  if env.check_mode then
    ⟨[], emit (absent_report nameStr isInc env.diff_mode false)⟩
  else
    match env.removeResult with
    | some cause =>
        ⟨[RemoteCall.remove (client_method_name isInc "remove")],
         .failed ("Error during client method " ++ q "remove" ++ ": " ++ cause)⟩
    | none =>
        ⟨[RemoteCall.remove (client_method_name isInc "remove")],
         emit (absent_report nameStr isInc env.diff_mode true)⟩

/-- Lookup of a key in a successful `exit_json` report (`none` when the
invocation did not reach a successful report). -/
def reportLookup (r : RunResult) (k : String) : Option JVal :=
  match r.outcome with
  | .exited kvs => kvs.lookup k
  | _ => none

/-- Whether any `replace` RPC was issued during the invocation. -/
def hasReplaceCall (r : RunResult) : Bool :=
  r.calls.any fun c =>
    match c with
    | .replace _ _ _ => true
    | _ => false

/-! ## Helper lemmas -/

/-- The present report always succeeds, and evaluates to the common keys,
the optional diff entry, and the `state`/`new`/`content` extras. -/
theorem present_report_eq (nameStr : String) (isInc diffMode c : Bool)
    (cur d t : String) :
    present_report nameStr isInc diffMode c cur d t =
      .ok ([("changed", JVal.b c), ("name", JVal.s nameStr),
            ("is_include", JVal.b isInc)]
        ++ (if diffMode then [("diff", JVal.diff (JVal.s cur) (JVal.s d))] else [])
        ++ [("state", JVal.s "present"), ("new", JVal.b (t == "new")),
            ("content", JVal.s d)]) := by
  cases diffMode <;> rfl

/-- Report lookup after an `emit`, unfolded on the outcome of building the
keyword set. -/
theorem reportLookup_emit (calls : List RemoteCall)
    (r : Except String (List (String × JVal))) (k : String) :
    reportLookup ⟨calls, emit r⟩ k =
      (match r with
       | .ok kvs => kvs.lookup k
       | .error _ => none) := by
  cases r <;> rfl

/-- The `_result` call of `absent()` raises at argument-binding time: its
`changed` parameter is bound positionally and again by keyword. -/
theorem absent_report_eq (nameStr : String) (isInc diffMode c : Bool) :
    absent_report nameStr isInc diffMode c =
      .error "TypeError: got multiple values for argument changed" := rfl

/-- `is_include` is `false` on every name: the source compares a
`PurePosixPath` with a `str`, and Python cross-type `==` is `False`. -/
theorem is_include_false (name : String) : is_include name = false := rfl

/-! ## Claims -/

/-- Invocation with a transport-level `get` failure (name `30-example`,
desired content `x` + newline, not in check mode, diff off). -/
def envTransport : Env :=
  ⟨false, false, "30-example", none, .err .transport, none, none⟩

/-- Invocation with a concurrency-conflict `get` failure. -/
def envConflict : Env :=
  ⟨false, false, "31-example", none, .err .conflict, none, none⟩

/-- Absent invocation on a name with no existing document: the store
rejects `remove` as not found. -/
def envAbsentMissing : Env :=
  ⟨false, false, "nonexistent", none, .err .notFound, none,
   some "policy not found"⟩

/-- Present invocation with an existing document whose content differs
from the desired content, diff mode off. -/
def envPresentDiffOff : Env :=
  ⟨false, false, "30-example", none, .ok "old\n" "tok1", none, none⟩

/-- Present invocation with an existing document, diff mode on. -/
def envPresentDiffOn : Env :=
  ⟨false, true, "40-example", none, .ok "a" "tok7", none, none⟩

/-- Present invocation whose desired content fails linting. -/
def envLintFail : Env :=
  ⟨false, false, "30-example", some "syntax error", .ok "" "tok", none, none⟩

/-- Present invocation with an existing, differing document (used to
exercise the replace branch). -/
def envReplace : Env :=
  ⟨false, false, "32-example", none, .ok "old" "tok2", none, none⟩

/-- Absent invocation whose `remove` succeeds at the store. -/
def envAbsentOk : Env :=
  ⟨false, false, "30-mgmtvm", none, .ok "x" "t", none, none⟩

/-- C1: for the name `include/admin-ro`, whose parent segment is the
literal `include`, the source computes `is_include = False` — the
`PurePosixPath`-vs-`str` comparison never holds — so `get` dispatches to
the ordinary-category `policy_get`, not `policy_include_get`; the
spec-faithful classifier disagrees, and the include branch of
`_client_method` is dead for every name. -/
theorem C1_include_dispatch_dead :
    is_include "include/admin-ro" = false
  ∧ isInclude_spec "include/admin-ro" = true
  ∧ client_method_name (is_include "include/admin-ro") "get" = "policy_get"
  ∧ (∀ n, is_include n = false) :=
  ⟨by decide, by decide, by decide, fun n => rfl⟩

/-- C2 counterexample: a `get` failure that is a transport fault, not
not-found, does not propagate as a hard failure of the Present workflow —
the code recovers it exactly like not-found (empty current content, `new`
sentinel) and completes with a successful report. -/
theorem C2_counterexample :
    present envTransport "x\n" =
      ⟨[.get "policy_get", .replace "policy_replace" "x\n" "new"],
       .exited [("changed", JVal.b true), ("name", JVal.s "30-example"),
                ("is_include", JVal.b false), ("state", JVal.s "present"),
                ("new", JVal.b true), ("content", JVal.s "x\n")]⟩ := by decide

/-- C2 (amended): during the Present workflow every `get()` failure is
recovered locally, regardless of kind — the code's handler is kind-blind,
treating transport faults and conflicts exactly like the not-found case
(current content empty, token the `new` sentinel); no `get()` failure
propagates to the caller. -/
theorem C2_amended_get_recovery (env : Env) (desired : String)
    (k : StoreFailure) (hget : env.getResult = .err k) :
    present env desired =
      present { env with getResult := .err .notFound } desired := by
  cases env
  cases hget
  cases k <;> rfl

/-- Witness for C2 (amended) at a concrete conflict failure. -/
theorem C2_amended_witness :
    present envConflict "y" =
      present { envConflict with getResult := .err .notFound } "y" :=
  C2_amended_get_recovery envConflict "y" .conflict rfl

/-- C3: on a name with no existing document (store rejects `remove` as not
found), the Absent workflow does not report `changed=false` — it reports a
hard failure through `fail_json`; and even when `remove` succeeds, the
reporting step crashes on a duplicate `changed` argument, so no
`changed=false` outcome is possible on either invocation. -/
theorem C3_absent_not_idempotent :
    absent envAbsentMissing =
      ⟨[.remove "policy_remove"],
       .failed ("Error during client method " ++ q "remove"
                ++ ": policy not found")⟩
  ∧ absent { envAbsentMissing with removeResult := none } =
      ⟨[.remove "policy_remove"],
       .crashed "TypeError: got multiple values for argument changed"⟩ :=
  ⟨by decide, by decide⟩

/-- C4: after a successful lint and read, the Present workflow reports
`changed=false` and issues no `replace` RPC when in check mode or when the
current content equals the desired content by exact string equality;
otherwise it issues exactly `replace(desired, token)` after the `get` and
reports `changed=true`. -/
theorem C4_present_decision (env : Env) (desired current token : String)
    (hlint : env.lintResult = none) (hget : env.getResult = .ok current token)
    (hrep : env.replaceResult = none) :
    if env.check_mode || current == desired then
      reportLookup (present env desired) "changed" = some (JVal.b false)
      ∧ hasReplaceCall (present env desired) = false
    else
      reportLookup (present env desired) "changed" = some (JVal.b true)
      ∧ (present env desired).calls
        = [RemoteCall.get (client_method_name (is_include env.name) "get"),
           RemoteCall.replace (client_method_name (is_include env.name) "replace")
             desired token] := by
  by_cases hc : (env.check_mode || current == desired) = true
  · rw [if_pos hc]
    refine ⟨?_, ?_⟩ <;>
      simp [present, hlint, hget, hrep, hc, reportLookup_emit,
            present_report_eq, hasReplaceCall, List.lookup]
  · rw [if_neg hc]
    rw [Bool.not_eq_true] at hc
    refine ⟨?_, ?_⟩ <;>
      simp [present, hlint, hget, hrep, hc, reportLookup_emit,
            present_report_eq, hasReplaceCall, List.lookup]

/-- Witness for C4 at a concrete input taking the replace branch. -/
theorem C4_witness :
    reportLookup (present envPresentDiffOff "new\n") "changed"
      = some (JVal.b true)
  ∧ (present envPresentDiffOff "new\n").calls
      = [RemoteCall.get (client_method_name (is_include envPresentDiffOff.name) "get"),
         RemoteCall.replace
           (client_method_name (is_include envPresentDiffOff.name) "replace")
           "new\n" "tok1"] :=
  C4_present_decision envPresentDiffOff "new\n" "old\n" "tok1" rfl rfl rfl

/-- C5: when the desired content fails linting, the Present workflow fails
before any remote store call — the call trace is empty, so neither `get`
nor `replace` occurs. -/
theorem C5_lint_precedence (env : Env) (desired diag : String)
    (h : env.lintResult = some diag) :
    present env desired = ⟨[], .failed ("Lint failed: " ++ diag)⟩ := by
  simp [present, h]

/-- Witness for C5 at a concrete lint failure. -/
theorem C5_witness :
    present envLintFail "bad content"
      = ⟨[], .failed ("Lint failed: syntax error")⟩ :=
  C5_lint_precedence envLintFail "bad content" "syntax error" rfl

/-- C6: `ToolContext.__exit__` translates both failure signals into
`ToolContextError` after restoring the saved streams: a `SystemExit` with
the designated failure status 1 becomes a `ToolContextError` carrying the
captured output text, and a `CalledProcessError` becomes a
`ToolContextError` carrying the process output trimmed of trailing
whitespace. -/
theorem C6_exit_translation (saved_in saved_out : StreamVal)
    (captured pout : String) :
    tc_exit saved_in saved_out captured (some (.systemExit 1))
        = (⟨saved_in, saved_out⟩, some (.toolContextError captured))
  ∧ tc_exit saved_in saved_out captured (some (.calledProcessError pout))
        = (⟨saved_in, saved_out⟩, some (.toolContextError (rstrip pout))) :=
  ⟨rfl, rfl⟩

/-- C7: on every exit path of a capture — normal return, designated-failure
`SystemExit`, `CalledProcessError`, or any other exception — the process
streams after the `with ToolContext(...)` block equal the streams at
entry, whatever the body did to them. -/
theorem C7_streams_restored {α : Type} (input : String) (sys0 : SysStreams)
    (body : SysStreams → BodyResult α) :
    (withToolContext input sys0 body).1 = sys0 := rfl

/-- C8 counterexample: a successful Present invocation with diff mode off
reports neither `before` nor `after` (no `diff` entry at all) — the result
contains only `changed`, `name`, `is_include`, `state`, `new`, `content`. -/
theorem C8_counterexample :
    present envPresentDiffOff "new\n" =
      ⟨[.get "policy_get", .replace "policy_replace" "new\n" "tok1"],
       .exited [("changed", JVal.b true), ("name", JVal.s "30-example"),
                ("is_include", JVal.b false), ("state", JVal.s "present"),
                ("new", JVal.b false), ("content", JVal.s "new\n")]⟩
  ∧ reportLookup (present envPresentDiffOff "new\n") "diff" = none
  ∧ reportLookup (present envPresentDiffOff "new\n") "before" = none :=
  ⟨by decide, by decide, by decide⟩

/-- C8 (amended): every successful Present invocation reports `changed`,
`state=present`, `new` equal to (token == the `new` sentinel), and
`content` equal to the desired content; `before` (the current store
content) and `after` (the desired content) are reported, inside a nested
`diff` entry, only when diff mode is enabled. -/
theorem C8_report_shape (env : Env) (desired current token : String)
    (hlint : env.lintResult = none) (hget : env.getResult = .ok current token)
    (hrep : env.replaceResult = none) :
    reportLookup (present env desired) "new" = some (JVal.b (token == "new"))
  ∧ reportLookup (present env desired) "content" = some (JVal.s desired)
  ∧ reportLookup (present env desired) "state" = some (JVal.s "present")
  ∧ reportLookup (present env desired) "diff"
      = (if env.diff_mode then some (JVal.diff (JVal.s current) (JVal.s desired))
         else none) := by
  by_cases hc : (env.check_mode || current == desired) = true <;>
    [skip; rw [Bool.not_eq_true] at hc] <;>
  cases hdm : env.diff_mode <;>
    refine ⟨?_, ?_, ?_, ?_⟩ <;>
      simp [present, hlint, hget, hrep, hc, hdm, reportLookup_emit,
            present_report_eq, List.lookup]

/-- Witness for C8 (amended) at a concrete diff-mode invocation. -/
theorem C8_report_shape_witness :
    reportLookup (present envPresentDiffOn "b") "new" = some (JVal.b false)
  ∧ reportLookup (present envPresentDiffOn "b") "content" = some (JVal.s "b")
  ∧ reportLookup (present envPresentDiffOn "b") "state" = some (JVal.s "present")
  ∧ reportLookup (present envPresentDiffOn "b") "diff"
      = some (JVal.diff (JVal.s "a") (JVal.s "b")) :=
  C8_report_shape envPresentDiffOn "b" "a" "tok7" rfl rfl rfl

/-- C9: `ToolContext.__exit__` converts an abnormal termination into a
`ToolContextError` exactly when the `SystemExit` status code is 1; for
every other code (2, 0, ...) the `SystemExit` propagates untranslated,
with the streams restored first in either case. -/
theorem C9_system_exit_dispatch (code : Int) (saved_in saved_out : StreamVal)
    (captured : String) :
    tc_exit saved_in saved_out captured (some (.systemExit code))
      = (⟨saved_in, saved_out⟩,
         if code == 1 then some (.toolContextError captured)
         else some (.systemExit code)) := rfl

/-- C10: in the Absent workflow, when not in check mode and `remove()`
succeeds, the reporting step binds the `changed` argument twice (once
positionally with the computed value `true`, once as the explicit keyword
`changed=True`), so it raises the duplicate-argument `TypeError` and the
workflow never emits a success report; the `before` position of that call
receives the policy name. -/
theorem C10_absent_duplicate_changed (env : Env)
    (hcm : env.check_mode = false) (hrm : env.removeResult = none) :
    absent env =
      ⟨[RemoteCall.remove (client_method_name (is_include env.name) "remove")],
       .crashed "TypeError: got multiple values for argument changed"⟩
  ∧ (absent_result_args (pathStr (pathSegments env.name)) true)[1]?
      = some (JVal.s (pathStr (pathSegments env.name))) := by
  refine ⟨?_, rfl⟩
  simp [absent, hcm, hrm, absent_report_eq, emit]

/-- Witness for C10 at a concrete successful remove. -/
theorem C10_witness :
    absent envAbsentOk =
      ⟨[RemoteCall.remove (client_method_name (is_include envAbsentOk.name) "remove")],
       .crashed "TypeError: got multiple values for argument changed"⟩
  ∧ (absent_result_args (pathStr (pathSegments envAbsentOk.name)) true)[1]?
      = some (JVal.s (pathStr (pathSegments envAbsentOk.name))) :=
  C10_absent_duplicate_changed envAbsentOk rfl rfl

end QubesPolicy

